import Mathlib

/-!
Verification of the secure media-delivery core of the `stream` repository:
token issuance/verification (`src/services/auth_service.py`), the streaming
session store (`src/models/access.py`), the HTTP range streamer
(`src/routes/streaming.py`), the access auditor and the expiry sweep.

Conventions of the embedding:
* datetimes are integers (seconds); `datetime.utcnow()` becomes an explicit
  `now : Int` parameter;
* SQLAlchemy tables are Lean lists; `query.filter_by(...).first()` is
  `List.find?`; mutating the ORM object returned by `.first()` and committing
  is `updateFirst` (replace the first matching row); mutating every row of a
  `.all()` result is `List.map` guarded by the same condition;
* Python `(value, error)` pairs become `Except String α`;
* the `StreamingSession` model in `src/models/access.py` lacks the
  `is_active`, `last_position` columns and the `is_expired` / `update_position`
  methods that `auth_service.py` and `routes/admin.py` call; likewise
  `AccessLog` lacks the `success` / `error_message` columns that
  `log_access` passes.  Those members are modelled from the spec and are
  marked `Modelled from the spec:` below.
-/

/-- Claims carried by a JWT minted by `AuthService` (`generate_stream_link`,
`generate_download_link`): `file_id`, `user_id`, optional `session_token`,
`type` ("stream" or "download"), `exp` and `iat` as integer timestamps. -/
structure JwtPayload where
  file_id : Nat
  user_id : Nat
  session_token : Option String
  type : String
  exp : Int
  iat : Int
deriving DecidableEq

/-- A signed token: the payload together with the key it was signed with.
Signature verification is modelled as comparing the signing key with the
key of the verifier (HS256 symmetric signing). -/
structure Jwt where
  payload : JwtPayload
  signedWith : String
deriving DecidableEq

/-- Errors raised by `jwt.decode`: `jwt.ExpiredSignatureError` and the
catch-all `jwt.InvalidTokenError`. -/
inductive JwtError where
  | expiredSignature
  | invalidToken
deriving DecidableEq

/-- Python `jwt.encode(payload, secret, algorithm="HS256")`. -/
def jwt_encode (payload : JwtPayload) (secret : String) : Jwt :=
  { payload := payload, signedWith := secret }

/-- Python `jwt.decode(token, secret, algorithms=["HS256"])` at time `now`:
a bad signature raises `InvalidTokenError`; PyJWT raises
`ExpiredSignatureError` iff `exp < now` (zero leeway). -/
def jwt_decode (token : Jwt) (secret : String) (now : Int) :
    Except JwtError JwtPayload :=
  if token.signedWith ≠ secret then .error .invalidToken
  else if token.payload.exp < now then .error .expiredSignature
  else .ok token.payload

/-- Durable streaming session row.  Columns `id, user_id, file_id,
session_token, expires_at, last_active, play_position` are the columns of
`StreamingSession` in `src/models/access.py`.  Modelled from the spec: the
`is_active` flag and the `last_position` seconds counter (spec section 3),
which every caller in `auth_service.py` and `routes/admin.py` uses but the
truncated model file omits. -/
structure StreamingSession where
  id : Nat
  user_id : Nat
  file_id : Nat
  session_token : String
  expires_at : Int
  last_active : Int
  play_position : Int
  is_active : Bool
  last_position : Rat
deriving DecidableEq

/-- Modelled from the spec: `is_expired(session) -> bool: now > expires_at`
(spec section 4.2); the method is called by `auth_service.py` but missing
from the model file. -/
def StreamingSession.is_expired (s : StreamingSession) (now : Int) : Bool :=
  now > s.expires_at

/-- Modelled from the spec: `update_position(...)` upserts `last_position`
(spec section 4.2); the method is called by
`AuthService.update_streaming_position` but missing from the model file. -/
def StreamingSession.update_position (s : StreamingSession) (position : Rat) :
    StreamingSession :=
  { s with last_position := position }

/-- The columns of the `File` model (`src/models/file.py`) that the
media-delivery core reads. -/
structure File where
  id : Nat
  file_path : String
  file_size : Int
  mime_type : Option String
deriving DecidableEq

/-- The database state seen by `AuthService`: the `streaming_session` and
`file` tables. -/
structure AuthDb where
  sessions : List StreamingSession
  files : List File
deriving DecidableEq

/-- The filter of `StreamingSession.query.filter_by(session_token=...,
file_id=..., user_id=..., is_active=True)` in `verify_stream_token`.
A payload whose `session_token` claim is absent matches no row (comparing a
non-nullable column with NULL). -/
def streamSessionFilter (payload : JwtPayload) (s : StreamingSession) : Bool :=
  some s.session_token == payload.session_token &&
  s.file_id == payload.file_id &&
  s.user_id == payload.user_id &&
  s.is_active

/-- Mutating the single ORM object returned by `.first()` and committing:
replace the first row satisfying `p` by its image under `f`. -/
def updateFirst (p : StreamingSession → Bool)
    (f : StreamingSession → StreamingSession) :
    List StreamingSession → List StreamingSession
  | [] => []
  | s :: rest => if p s then f s :: rest else s :: updateFirst p f rest

/-- The dictionary returned by a successful `verify_stream_token`. -/
structure StreamInfo where
  file : File
  user_id : Nat
  session : StreamingSession
deriving DecidableEq

/-- Embedding of `AuthService.verify_stream_token` (`auth_service.py` lines 78-124).
Returns the possibly-updated database (the expired-session branch commits a
deactivation) and either the result dictionary or the error message. -/
def verify_stream_token (db : AuthDb) (secret : String) (now : Int)
    (token : Jwt) : AuthDb × Except String StreamInfo :=
  match jwt_decode token secret now with
  | .error .expiredSignature => (db, .error "Token expired")
  | .error .invalidToken => (db, .error "Invalid token")
  | .ok payload =>
    if payload.type ≠ "stream" then (db, .error "Invalid token type")
    else
      match db.sessions.find? (streamSessionFilter payload) with
      | none => (db, .error "Invalid or expired session")
      | some session =>
        if session.is_expired now then
          let deactivated := updateFirst (streamSessionFilter payload)
            (fun s => { s with is_active := false }) db.sessions
          ({ db with sessions := deactivated }, .error "Session expired")
        else
          match db.files.find? (fun f => f.id == payload.file_id) with
          | none => (db, .error "File not found")
          | some file => (db, .ok ⟨file, payload.user_id, session⟩)

/-- The dictionary returned by a successful `verify_download_token`. -/
structure DownloadInfo where
  file : File
  user_id : Nat
deriving DecidableEq

/-- Embedding of `AuthService.verify_download_token` (`auth_service.py` lines 126-154);
stateless. -/
def verify_download_token (db : AuthDb) (secret : String) (now : Int)
    (token : Jwt) : Except String DownloadInfo :=
  match jwt_decode token secret now with
  | .error .expiredSignature => .error "Token expired"
  | .error .invalidToken => .error "Invalid token"
  | .ok payload =>
    if payload.type ≠ "download" then .error "Invalid token type"
    else
      match db.files.find? (fun f => f.id == payload.file_id) with
      | none => .error "File not found"
      | some file => .ok ⟨file, payload.user_id⟩

/-- Embedding of `AuthService.generate_stream_link`: creates the session row
(`expires_at = now + ttl`, fresh `session_token`, next primary key `newId`)
and signs a token with `exp = expires_at`.  The random
`secrets.token_urlsafe(32)` value and the autoincrement id are parameters. -/
def generate_stream_link (db : AuthDb) (secret : String) (now : Int)
    (file_id user_id : Nat) (session_token : String) (newId : Nat)
    (ttl : Int) : AuthDb × Jwt :=
  let expires_at := now + ttl
  let streaming_session : StreamingSession :=
    { id := newId, user_id := user_id, file_id := file_id,
      session_token := session_token, expires_at := expires_at,
      last_active := now, play_position := 0,
      is_active := true, last_position := 0 }
  let payload : JwtPayload :=
    { file_id := file_id, user_id := user_id,
      session_token := some session_token, type := "stream",
      exp := expires_at, iat := now }
  ({ db with sessions := db.sessions ++ [streaming_session] },
   jwt_encode payload secret)

/-- Embedding of `AuthService.generate_download_link`: stateless, `exp = now + ttl`. -/
def generate_download_link (secret : String) (now : Int)
    (file_id user_id : Nat) (ttl : Int) : Jwt :=
  jwt_encode
    { file_id := file_id, user_id := user_id, session_token := none,
      type := "download", exp := now + ttl, iat := now } secret

/-- The query `StreamingSession.query.filter_by(session_token=...).first()`. -/
def sessionQuery (db : AuthDb) (session_token : String) :
    Option StreamingSession :=
  db.sessions.find? (fun s => s.session_token == session_token)

/-- Embedding of `AuthService.update_streaming_position` (`auth_service.py` lines
176-187): writes only when the session exists, is active and is not
expired; returns the Python boolean. -/
def update_streaming_position (db : AuthDb) (now : Int)
    (session_token : String) (position : Rat) : AuthDb × Bool :=
  match sessionQuery db session_token with
  | some session =>
    if session.is_active && !(session.is_expired now) then
      let written := updateFirst (fun s => s.session_token == session_token)
        (fun s => s.update_position position) db.sessions
      ({ db with sessions := written }, true)
    else (db, false)
  | none => (db, false)

/-- Body of `AuthService.get_streaming_position` (`auth_service.py` lines
189-199) over the outcome of the database query.  `Except.error` is any
exception raised inside the `try` block: the handler returns `0.0`. -/
def get_streaming_position_run
    (queryResult : Except Unit (Option StreamingSession)) (now : Int) : Rat :=
  match queryResult with
  | .error _ => 0
  | .ok (some session) =>
    if session.is_active && !(session.is_expired now) then
      session.last_position
    else 0
  | .ok none => 0

/-- Embedding of `AuthService.get_streaming_position` on a database whose query does not
fail. -/
def get_streaming_position (db : AuthDb) (now : Int)
    (session_token : String) : Rat :=
  get_streaming_position_run (.ok (sessionQuery db session_token)) now

/-- The filter of `cleanup_expired_sessions`:
`expires_at < datetime.utcnow()` and `is_active == True`. -/
def expiredActiveFilter (now : Int) (s : StreamingSession) : Bool :=
  s.expires_at < now && s.is_active

/-- Outcome of `cleanup_expired_sessions`: the new database, the Python
return value (the function has no `return` statement, so it returns `None`,
embedded as `none`), and the count reported in the `logger.info` message. -/
structure CleanupResult where
  db : AuthDb
  ret : Option Nat
  logged : Nat
deriving DecidableEq

/-- Embedding of `AuthService.cleanup_expired_sessions` (`auth_service.py` lines
216-232): deactivates every row matched by the filter, commits, logs the
count, returns `None`. -/
def cleanup_expired_sessions (db : AuthDb) (now : Int) : CleanupResult :=
  let expired_sessions := db.sessions.filter (expiredActiveFilter now)
  let swept := db.sessions.map (fun s =>
    if expiredActiveFilter now s then { s with is_active := false } else s)
  { db := { db with sessions := swept },
    ret := none,
    logged := expired_sessions.length }

/-- Access-log row.  Columns `user_id, file_id, action, ip_address,
user_agent, timestamp` are the columns of `AccessLog` in
`src/models/access.py`.  Modelled from the spec: the `success` and
`error_message` columns (spec section 3), which `AuthService.log_access`
passes but the truncated model file omits. -/
structure AccessLog where
  user_id : Nat
  file_id : Option Nat
  action : String
  ip_address : Option String
  user_agent : Option String
  timestamp : Int
  success : Bool
  error_message : Option String
deriving DecidableEq

/-- Outcome of `log_access`: the access-log table, the exception propagated
to the caller (always `none`: the `except` clause swallows everything), and
whether the internal `logger.error` fired. -/
structure LogAccessResult where
  logs : List AccessLog
  raised : Option String
  loggedError : Bool
deriving DecidableEq

/-- Embedding of `AuthService.log_access` (`auth_service.py` lines 156-174).
`commitFails` models `db.session.add`/`db.session.commit` raising; the
`except` branch logs the error and rolls back, so the table is unchanged and
nothing propagates. -/
def log_access (logs : List AccessLog) (now : Int) (user_id : Nat)
    (file_id : Option Nat) (action : String)
    (ip_address user_agent : Option String) (success : Bool)
    (error_message : Option String) (commitFails : Bool) : LogAccessResult :=
  if commitFails then
    { logs := logs, raised := none, loggedError := true }
  else
    let access_log : AccessLog :=
      { user_id := user_id, file_id := file_id, action := action,
        ip_address := ip_address, user_agent := user_agent,
        timestamp := now, success := success,
        error_message := error_message }
    { logs := logs ++ [access_log], raised := none, loggedError := false }

/-- The `download_file` route (`routes/streaming.py` lines 46-71) up to the
final `send_file`: verify, log the access, answer.  Returns the HTTP status
and the access-log table. -/
def download_file (db : AuthDb) (secret : String) (now : Int) (token : Jwt)
    (logs : List AccessLog) (ip_address user_agent : Option String)
    (commitFails : Bool) : Nat × List AccessLog :=
  match verify_download_token db secret now token with
  | .error _ => (403, logs)
  | .ok result =>
    let r := log_access logs now result.user_id (some result.file.id)
      "download" ip_address user_agent true none commitFails
    (200, r.logs)

/-- Python `str.replace(pattern, replacement)` on character lists: every
occurrence of `pat` is rewritten to `rep`, scanning left to right.  The
scan consumes at least one character per step, so `cs.length + 1` fuel
makes the recursion structural. -/
def replaceAux (pat rep : List Char) : Nat → List Char → List Char
  | 0, cs => cs
  | _ + 1, [] => []
  | fuel + 1, c :: cs =>
    if !pat.isEmpty && pat.isPrefixOf (c :: cs) then
      rep ++ replaceAux pat rep fuel ((c :: cs).drop pat.length)
    else c :: replaceAux pat rep fuel cs

/-- Python `str.replace` wrapper supplying the fuel. -/
def replaceAll (pat rep cs : List Char) : List Char :=
  replaceAux pat rep (cs.length + 1) cs

/-- Python `str.split('-')` on character lists (accumulator-based). -/
def splitOnDashAux : List Char → List Char → List (List Char)
  | [], acc => [acc.reverse]
  | c :: cs, acc =>
    if c = '-' then acc.reverse :: splitOnDashAux cs []
    else splitOnDashAux cs (c :: acc)

/-- Python `str.split('-')`: splitting the empty string gives one empty
piece, separators are dropped. -/
def splitOnDash (cs : List Char) : List (List Char) :=
  splitOnDashAux cs []

/-- Python `int(...)` on the strings reaching it here (pieces of a range
header, hence free of the `-` sign): succeeds exactly on nonempty
all-digit strings. -/
def pyInt (cs : List Char) : Option Int :=
  if !cs.isEmpty && cs.all (fun c => '0' ≤ c && c ≤ '9') then
    some (cs.foldl (fun a c => a * 10 + ((c.toNat - '0'.toNat : Nat) : Int)) 0)
  else none

/-- Range-header parsing of `stream_file_data` (`routes/streaming.py` lines
99-104): strip `bytes=`, split on `-`, take defaults `0` and
`file_size - 1` for empty pieces.  `none` is any exception escaping this
block (`IndexError` when there is no `-`, `ValueError` from `int`), which
the outer handler of the route turns into a 500 response. -/
def parseRangeParts (rangeHeader : String) (fileSize : Int) :
    Option (Int × Int) :=
  match splitOnDash (replaceAll "bytes=".toList [] rangeHeader.toList) with
  | p0 :: p1 :: _ =>
    match (if p0.isEmpty then some 0 else pyInt p0),
          (if p1.isEmpty then some (fileSize - 1) else pyInt p1) with
    | some s, some e => some (s, e)
    | _, _ => none
  | _ => none

/-- Python `f.read(n)` on a file whose remaining bytes start at `pos`:
a negative argument reads to the end of the file. -/
def fRead (file : List Nat) (pos : Nat) (n : Int) : List Nat :=
  if n < 0 then file.drop pos else (file.drop pos).take n.toNat

/-- The `generate()` chunk loop of `stream_file_data` (`routes/streaming.py`
lines 112-122): seek to `pos`, then while `remaining` is nonzero read
`min(8192, remaining)` bytes, stop on an empty read.  The Python loop is a
`while`; the `fuel` argument only bounds the iteration count and
`file.length + 2` is always enough (every iteration either stops or
consumes at least one byte of the file). -/
def generateChunks (file : List Nat) : Nat → Nat → Int → List Nat
  | 0, _, _ => []
  | fuel + 1, pos, remaining =>
    if remaining = 0 then []
    else
      let chunk := fRead file pos (min 8192 remaining)
      if chunk.isEmpty then []
      else chunk ++ generateChunks file fuel (pos + chunk.length)
        (remaining - chunk.length)

/-- The response descriptor built by `stream_file_data`: status code and the
headers it sets, with the body as the byte list produced by the generator.
The 500 branch answers JSON with none of these headers. -/
structure HttpResponse where
  status : Nat
  contentRange : Option String
  acceptRanges : Bool
  contentLength : Option Int
  contentType : Option String
  body : List Nat
deriving DecidableEq

/-- The 500 answer of the outer exception handler of the route. -/
def internalServerError : HttpResponse :=
  { status := 500, contentRange := none, acceptRanges := false,
    contentLength := none, contentType := none, body := [] }

/-- The full-content branch of `stream_file_data` (no `Range` header, or a
falsy empty one): status 200, whole file as body. -/
def fullContentResponse (diskFile : List Nat) (mimeType : Option String) :
    HttpResponse :=
  { status := 200, contentRange := none, acceptRanges := true,
    contentLength := some (diskFile.length : Int),
    contentType := some (mimeType.getD "application/octet-stream"),
    body := diskFile }

/-- Embedding of `stream_file_data` (`routes/streaming.py` lines 95-146) after token
verification and the on-disk existence check: `diskFile` is the byte
content of the file (so `os.path.getsize` is its length), `mimeType` is
`file.mime_type`, `rangeHeader` the `Range` header of the request.  Clamps
`byte_start = max(0, start)`, `byte_end = min(file_size - 1, end)` and
always answers 206 on the range branch; there is no 416 path. -/
def stream_file_data (diskFile : List Nat) (mimeType : Option String)
    (rangeHeader : Option String) : HttpResponse :=
  let file_size : Int := (diskFile.length : Int)
  match rangeHeader with
  | some h =>
    if h = "" then fullContentResponse diskFile mimeType
    else
      match parseRangeParts h file_size with
      | none => internalServerError
      | some (s0, e0) =>
        let byte_start := max 0 s0
        let byte_end := min (file_size - 1) e0
        let content_length := byte_end - byte_start + 1
        { status := 206,
          contentRange := some ("bytes " ++ toString byte_start ++ "-" ++
            toString byte_end ++ "/" ++ toString file_size),
          acceptRanges := true,
          contentLength := some content_length,
          contentType := some (mimeType.getD "application/octet-stream"),
          body := generateChunks diskFile (diskFile.length + 2)
            byte_start.toNat content_length }
  | none => fullContentResponse diskFile mimeType

/-- Searching an appended table when the first part has no match. -/
theorem find?_append_none {α : Type} {p : α → Bool} {l1 l2 : List α}
    (h : l1.find? p = none) : (l1 ++ l2).find? p = l2.find? p := by
  induction l1 with
  | nil => rfl
  | cons x xs ih =>
    by_cases hx : p x
    · simp [List.find?, hx] at h
    · simp only [List.cons_append, List.find?, hx] at h ⊢
      exact ih h

/-- Searching after an in-place update of the first match, when the update
preserves the predicate. -/
theorem find?_updateFirst (p : StreamingSession → Bool)
    (f : StreamingSession → StreamingSession) (l : List StreamingSession)
    (hp : ∀ s, p s = true → p (f s) = true) :
    (updateFirst p f l).find? p = (l.find? p).map f := by
  induction l with
  | nil => rfl
  | cons x xs ih =>
    by_cases hx : p x
    · simp [updateFirst, hx, List.find?, hp x hx]
    · simp [updateFirst, hx, List.find?, ih]

/-- An in-place update of the first match rewrites exactly the row that
`find?` returns and no other row. -/
theorem updateFirst_split (p : StreamingSession → Bool)
    (f : StreamingSession → StreamingSession) :
    ∀ (l : List StreamingSession) (a : StreamingSession),
      l.find? p = some a →
      ∃ l1 l2, l = l1 ++ a :: l2 ∧ updateFirst p f l = l1 ++ f a :: l2 := by
  intro l
  induction l with
  | nil => intro a h; exact absurd h (by simp)
  | cons x xs ih =>
    intro a h
    by_cases hx : p x
    · have hxa : x = a := by simpa [List.find?, hx] using h
      subst hxa
      exact ⟨[], xs, by simp, by simp [updateFirst, hx]⟩
    · simp only [List.find?, hx] at h
      obtain ⟨l1, l2, h1, h2⟩ := ih a h
      exact ⟨x :: l1, l2, by simp [h1], by simp [updateFirst, hx, h2]⟩

/-- The chunked read loop delivers exactly the requested window when the
request fits inside the file and the fuel covers the iteration count. -/
theorem generateChunks_eq_take_drop (file : List Nat) :
    ∀ (fuel pos r : Nat), pos + r ≤ file.length → r ≤ fuel →
      generateChunks file fuel pos (r : Int) = (file.drop pos).take r := by
  intro fuel
  induction fuel with
  | zero =>
    intro pos r hle hf
    have hr : r = 0 := by omega
    subst hr
    simp [generateChunks]
  | succ n ih =>
    intro pos r hle hf
    by_cases hr : r = 0
    · subst hr; simp [generateChunks]
    · have hrpos : 1 ≤ r := by omega
      have hnn : ¬ (min 8192 (r : Int) < 0) := by omega
      have ht : (min 8192 (r : Int)).toNat = min 8192 r := by omega
      have hc : fRead file pos (min 8192 (r : Int)) =
          (file.drop pos).take (min 8192 r) := by
        simp only [fRead, if_neg hnn, ht]
      have hm1 : 1 ≤ min 8192 r := by omega
      have hmr : min 8192 r ≤ r := by omega
      have hlen : ((file.drop pos).take (min 8192 r)).length = min 8192 r := by
        simp [List.length_take, List.length_drop]
        omega
      have hne : ((file.drop pos).take (min 8192 r)).isEmpty = false := by
        cases hcc : (file.drop pos).take (min 8192 r) with
        | nil => rw [hcc] at hlen; simp at hlen; omega
        | cons a t => simp
      rw [show generateChunks file (n + 1) pos (r : Int) =
          (if (r : Int) = 0 then [] else
            let chunk := fRead file pos (min 8192 (r : Int))
            if chunk.isEmpty then [] else
              chunk ++ generateChunks file n (pos + chunk.length)
                ((r : Int) - chunk.length)) from rfl]
      rw [if_neg (by exact_mod_cast hr), hc]
      simp only [hne, Bool.false_eq_true, if_false, hlen]
      have hcast : (r : Int) - (min 8192 r : Nat) = ((r - min 8192 r : Nat) : Int) := by
        push_cast; omega
      rw [hcast, ih (pos + min 8192 r) (r - min 8192 r) (by omega) (by omega)]
      rw [← List.drop_drop, ← List.take_add]
      congr 1
      omega

/-- Whether a service result pair is the error case (the routes answer 403
exactly then). -/
def exceptIsError {α : Type} (r : Except String α) : Bool :=
  match r with
  | .error _ => true
  | .ok _ => false

/-- A valid, unexpired signature decodes to the payload. -/
theorem jwt_decode_ok (token : Jwt) (secret : String) (now : Int)
    (hsig : token.signedWith = secret) (hexp : now ≤ token.payload.exp) :
    jwt_decode token secret now = .ok token.payload := by
  simp only [jwt_decode, hsig]
  rw [if_neg (by simp), if_neg (by omega)]

/-- C1: a stream token whose backing session is deactivated or past its
session expiry is rejected by `verify_stream_token` even though the
embedded expiry of the token itself has not passed and its signature is valid.  The
`huniq` hypothesis is the `unique=True` constraint on the
`session_token` column. -/
theorem C1_dead_session_rejected (db : AuthDb) (secret : String) (now : Int)
    (token : Jwt) (sess : StreamingSession)
    (hsig : token.signedWith = secret)
    (hexp : now ≤ token.payload.exp)
    (htype : token.payload.type = "stream")
    (htok : token.payload.session_token = some sess.session_token)
    (hfile : sess.file_id = token.payload.file_id)
    (huser : sess.user_id = token.payload.user_id)
    (hmem : sess ∈ db.sessions)
    (huniq : ∀ s ∈ db.sessions, s.session_token = sess.session_token → s = sess)
    (hdead : sess.is_active = false ∨ sess.is_expired now = true) :
    exceptIsError (verify_stream_token db secret now token).2 = true := by
  simp only [verify_stream_token, jwt_decode_ok token secret now hsig hexp]
  rw [if_neg (by simp [htype])]
  cases hfind : db.sessions.find? (streamSessionFilter token.payload) with
  | none => rfl
  | some s =>
    have hps := List.find?_some hfind
    have hmem2 := List.mem_of_find?_eq_some hfind
    simp only [streamSessionFilter, htok, Bool.and_eq_true, beq_iff_eq,
      Option.some.injEq] at hps
    have hs : s = sess := huniq s hmem2 hps.1.1.1
    subst hs
    rcases hdead with h | h
    · rw [hps.2] at h
      exact absurd h (by simp)
    · simp [h, exceptIsError]

/-- Session, database and token for the C1 witness: the session matches the
token and is explicitly deactivated while the token itself is unexpired. -/
def c1Session : StreamingSession :=
  { id := 1, user_id := 2, file_id := 3, session_token := "tok",
    expires_at := 100, last_active := 0, play_position := 0,
    is_active := false, last_position := 0 }

/-- Database for the C1 witness. -/
def c1Db : AuthDb := { sessions := [c1Session], files := [] }

/-- Payload of the C1 witness token. -/
def c1Payload : JwtPayload :=
  { file_id := 3, user_id := 2, session_token := some "tok",
    type := "stream", exp := 100, iat := 0 }

/-- Token for the C1 witness. -/
def c1Token : Jwt := jwt_encode c1Payload "key"

/-- C1 witness: the theorem applied at time 50 (token exp 100, session
deactivated). -/
theorem C1_dead_session_rejected_witness :
    exceptIsError (verify_stream_token c1Db "key" 50 c1Token).2 = true :=
  C1_dead_session_rejected c1Db "key" 50 c1Token c1Session rfl (by decide)
    rfl rfl rfl rfl (by decide) (by decide) (Or.inl rfl)

/-- C5: `update_streaming_position` on the token of an inactive or expired
session returns the failure boolean and leaves the whole database — in
particular the stored position — unchanged. -/
theorem C5_stale_session_write_rejected (db : AuthDb) (now : Int)
    (session_token : String) (position : Rat) (sess : StreamingSession)
    (hfind : sessionQuery db session_token = some sess)
    (hdead : sess.is_active = false ∨ sess.is_expired now = true) :
    update_streaming_position db now session_token position = (db, false) := by
  simp only [update_streaming_position, hfind]
  rcases hdead with h | h <;> simp [h]

/-- Deactivated session for the C5 witness, holding position 7. -/
def c5Session : StreamingSession :=
  { id := 1, user_id := 1, file_id := 1, session_token := "c5tok",
    expires_at := 100, last_active := 0, play_position := 0,
    is_active := false, last_position := 7 }

/-- Database for the C5 witness. -/
def c5Db : AuthDb := { sessions := [c5Session], files := [] }

/-- C5 witness: writing 42.5 to the deactivated session fails and changes
nothing. -/
theorem C5_stale_session_write_rejected_witness :
    update_streaming_position c5Db 50 "c5tok" (42.5 : Rat) = (c5Db, false) :=
  C5_stale_session_write_rejected c5Db 50 "c5tok" (42.5 : Rat) c5Session
    (by decide) (Or.inl rfl)

/-- C6: on an active, unexpired session a successful position write followed
by a read with no intervening writes returns exactly the written value. -/
theorem C6_update_then_get (db : AuthDb) (now1 now2 : Int)
    (session_token : String) (position : Rat) (sess : StreamingSession)
    (hfind : sessionQuery db session_token = some sess)
    (hactive : sess.is_active = true)
    (hlive1 : sess.is_expired now1 = false)
    (hlive2 : sess.is_expired now2 = false) :
    (update_streaming_position db now1 session_token position).2 = true ∧
    get_streaming_position
      (update_streaming_position db now1 session_token position).1 now2
      session_token = position := by
  have hupd : update_streaming_position db now1 session_token position =
      (AuthDb.mk (updateFirst (fun s => s.session_token == session_token)
        (fun s => s.update_position position) db.sessions) db.files, true) := by
    simp only [update_streaming_position, hfind, hactive, hlive1]
    simp
  refine ⟨by rw [hupd], ?_⟩
  rw [hupd]
  simp only [get_streaming_position, sessionQuery]
  rw [find?_updateFirst _ _ _
    (fun s hp => by simpa [StreamingSession.update_position] using hp)]
  have hfind2 : db.sessions.find?
      (fun s => s.session_token == session_token) = some sess := hfind
  rw [hfind2]
  simp [get_streaming_position_run, StreamingSession.update_position,
    StreamingSession.is_expired] at hlive2 ⊢
  simp [hactive, hlive2]

/-- Active unexpired session for the C6 witness. -/
def c6Session : StreamingSession :=
  { id := 1, user_id := 1, file_id := 1, session_token := "c6tok",
    expires_at := 100, last_active := 0, play_position := 0,
    is_active := true, last_position := 0 }

/-- Database for the C6 witness. -/
def c6Db : AuthDb := { sessions := [c6Session], files := [] }

/-- C6 witness: writing 42.5 then reading yields 42.5. -/
theorem C6_update_then_get_witness :
    (update_streaming_position c6Db 10 "c6tok" (42.5 : Rat)).2 = true ∧
    get_streaming_position
      (update_streaming_position c6Db 10 "c6tok" (42.5 : Rat)).1 20
      "c6tok" = (42.5 : Rat) :=
  C6_update_then_get c6Db 10 20 "c6tok" (42.5 : Rat) c6Session (by decide)
    rfl (by decide) (by decide)

/-- C9: presenting a structurally valid, unexpired stream token whose
matching session is active but past its session expiry makes
`verify_stream_token` persist `is_active := false` on exactly that row —
all its other fields and all other rows unchanged — besides returning the
error. -/
theorem C9_expired_session_deactivated (db : AuthDb) (secret : String)
    (now : Int) (token : Jwt) (sess : StreamingSession)
    (hsig : token.signedWith = secret)
    (hexp : now ≤ token.payload.exp)
    (htype : token.payload.type = "stream")
    (hfind : db.sessions.find? (streamSessionFilter token.payload) = some sess)
    (hexpired : sess.is_expired now = true) :
    (verify_stream_token db secret now token).2 = .error "Session expired" ∧
    (verify_stream_token db secret now token).1.files = db.files ∧
    ∃ l1 l2, db.sessions = l1 ++ sess :: l2 ∧
      (verify_stream_token db secret now token).1.sessions =
        l1 ++ { sess with is_active := false } :: l2 := by
  have hv : verify_stream_token db secret now token =
      (AuthDb.mk (updateFirst (streamSessionFilter token.payload)
        (fun s => { s with is_active := false }) db.sessions) db.files,
       .error "Session expired") := by
    simp only [verify_stream_token, jwt_decode_ok token secret now hsig hexp]
    rw [if_neg (by simp [htype])]
    simp only [hfind, hexpired]
    simp
  obtain ⟨l1, l2, h1, h2⟩ := updateFirst_split (streamSessionFilter token.payload)
    (fun s => { s with is_active := false }) db.sessions sess hfind
  exact ⟨by rw [hv], by rw [hv], l1, l2, h1, by rw [hv]; exact h2⟩

/-- Active but session-expired session for the C9 witness. -/
def c9Session : StreamingSession :=
  { id := 4, user_id := 5, file_id := 6, session_token := "c9tok",
    expires_at := 40, last_active := 0, play_position := 0,
    is_active := true, last_position := 3 }

/-- Database for the C9 witness. -/
def c9Db : AuthDb := { sessions := [c9Session], files := [] }

/-- Payload of the C9 witness token: token exp 100, session expiry 40,
checked at time 50. -/
def c9Payload : JwtPayload :=
  { file_id := 6, user_id := 5, session_token := some "c9tok",
    type := "stream", exp := 100, iat := 0 }

/-- Token for the C9 witness. -/
def c9Token : Jwt := jwt_encode c9Payload "key"

/-- C9 witness. -/
theorem C9_expired_session_deactivated_witness :
    (verify_stream_token c9Db "key" 50 c9Token).2 = .error "Session expired" ∧
    (verify_stream_token c9Db "key" 50 c9Token).1.files = c9Db.files ∧
    ∃ l1 l2, c9Db.sessions = l1 ++ c9Session :: l2 ∧
      (verify_stream_token c9Db "key" 50 c9Token).1.sessions =
        l1 ++ { c9Session with is_active := false } :: l2 :=
  C9_expired_session_deactivated c9Db "key" 50 c9Token c9Session rfl
    (by decide) rfl (by decide) (by decide)

/-- C10: `get_streaming_position` answers `0.0` when the query raises, when
no session matches, and when the matching session is inactive or expired;
being a total function into `Rat` it never raises. -/
theorem C10_get_position_zero (now : Int) (sess : StreamingSession)
    (db : AuthDb) (session_token : String)
    (hdead : sess.is_active = false ∨ sess.is_expired now = true)
    (hnone : sessionQuery db session_token = none) :
    get_streaming_position_run (.error ()) now = 0 ∧
    get_streaming_position_run (.ok none) now = 0 ∧
    get_streaming_position_run (.ok (some sess)) now = 0 ∧
    get_streaming_position db now session_token = 0 := by
  refine ⟨rfl, rfl, ?_, ?_⟩
  · rcases hdead with h | h <;> simp [get_streaming_position_run, h]
  · simp [get_streaming_position, hnone, get_streaming_position_run]

/-- Expired session for the C10 witness. -/
def c10Session : StreamingSession :=
  { id := 1, user_id := 1, file_id := 1, session_token := "c10tok",
    expires_at := 10, last_active := 0, play_position := 0,
    is_active := true, last_position := 9 }

/-- C10 witness: all the default-to-zero cases at time 50 on an empty
database. -/
theorem C10_get_position_zero_witness :
    get_streaming_position_run (.error ()) 50 = 0 ∧
    get_streaming_position_run (.ok none) 50 = 0 ∧
    get_streaming_position_run (.ok (some c10Session)) 50 = 0 ∧
    get_streaming_position { sessions := [], files := [] } 50 "c10tok" = 0 :=
  C10_get_position_zero 50 c10Session { sessions := [], files := [] }
    "c10tok" (Or.inr (by decide)) (by decide)

/-- An expired signature makes stream verification answer the token-expiry
error whatever the database holds. -/
theorem verify_stream_token_expired (db : AuthDb) (secret : String)
    (now : Int) (token : Jwt) (hsig : token.signedWith = secret)
    (h : token.payload.exp < now) :
    (verify_stream_token db secret now token).2 = .error "Token expired" := by
  have hd : jwt_decode token secret now = .error .expiredSignature := by
    simp only [jwt_decode, hsig]
    rw [if_neg (by simp), if_pos h]
  simp [verify_stream_token, hd]

/-- An expired signature makes download verification answer the token-expiry
error whatever the database holds. -/
theorem verify_download_token_expired (db : AuthDb) (secret : String)
    (now : Int) (token : Jwt) (hsig : token.signedWith = secret)
    (h : token.payload.exp < now) :
    verify_download_token db secret now token = .error "Token expired" := by
  have hd : jwt_decode token secret now = .error .expiredSignature := by
    simp only [jwt_decode, hsig]
    rw [if_neg (by simp), if_pos h]
  simp [verify_download_token, hd]

/-- C4: a token issued with TTL `ttl` at time `t0` verifies without any
expiry failure before `t0 + ttl` (the only possible failure is the file
lookup) and fails with the `Token expired` error after `t0 + ttl`, for the
stream token (against the post-issuance state) and for the download token.
`hfresh` is the freshness of the random session token. -/
theorem C4_ttl_expiry (db : AuthDb) (secret : String) (t0 ttl t1 t2 : Int)
    (file_id user_id newId : Nat) (session_token : String)
    (hfresh : ∀ s ∈ db.sessions, ¬ s.session_token = session_token)
    (h1 : t1 < t0 + ttl) (h2 : t0 + ttl < t2) :
    ((verify_stream_token
        (generate_stream_link db secret t0 file_id user_id session_token
          newId ttl).1 secret t1
        (generate_stream_link db secret t0 file_id user_id session_token
          newId ttl).2).2 = .error "File not found" ∨
      (∃ info, (verify_stream_token
        (generate_stream_link db secret t0 file_id user_id session_token
          newId ttl).1 secret t1
        (generate_stream_link db secret t0 file_id user_id session_token
          newId ttl).2).2 = .ok info)) ∧
    (verify_stream_token
        (generate_stream_link db secret t0 file_id user_id session_token
          newId ttl).1 secret t2
        (generate_stream_link db secret t0 file_id user_id session_token
          newId ttl).2).2 = .error "Token expired" ∧
    (verify_download_token db secret t1
        (generate_download_link secret t0 file_id user_id ttl) =
          .error "File not found" ∨
      (∃ info, verify_download_token db secret t1
        (generate_download_link secret t0 file_id user_id ttl) = .ok info)) ∧
    verify_download_token db secret t2
      (generate_download_link secret t0 file_id user_id ttl) =
        .error "Token expired" := by
  refine ⟨?_, ?_, ?_, ?_⟩
  · simp only [generate_stream_link, jwt_encode]
    have hd := jwt_decode_ok
      (Jwt.mk (JwtPayload.mk file_id user_id (some session_token) "stream"
        (t0 + ttl) t0) secret) secret t1 rfl (by simpa using le_of_lt h1)
    simp only [verify_stream_token, hd]
    rw [if_neg (by simp)]
    have hnone : db.sessions.find? (streamSessionFilter
        (JwtPayload.mk file_id user_id (some session_token) "stream"
          (t0 + ttl) t0)) = none := by
      rw [List.find?_eq_none]
      intro s hs
      simp [streamSessionFilter, hfresh s hs]
    rw [find?_append_none hnone]
    rw [show (List.find? (streamSessionFilter (JwtPayload.mk file_id user_id
        (some session_token) "stream" (t0 + ttl) t0))
        [StreamingSession.mk newId user_id file_id session_token (t0 + ttl)
          t0 0 true 0]) = some (StreamingSession.mk newId user_id file_id
          session_token (t0 + ttl) t0 0 true 0) by
      simp [List.find?, streamSessionFilter]]
    have hlt : ¬ (t1 > t0 + ttl) := by omega
    cases hf : db.files.find? (fun f => f.id == file_id) with
    | none =>
      left
      simp [StreamingSession.is_expired, hlt, hf]
    | some file =>
      right
      refine ⟨StreamInfo.mk file user_id (StreamingSession.mk newId user_id
        file_id session_token (t0 + ttl) t0 0 true 0), ?_⟩
      simp [StreamingSession.is_expired, hlt, hf]
  · simp only [generate_stream_link, jwt_encode]
    exact verify_stream_token_expired _ secret t2 _ rfl (by simpa using h2)
  · simp only [generate_download_link, jwt_encode]
    have hd := jwt_decode_ok
      (Jwt.mk (JwtPayload.mk file_id user_id none "download" (t0 + ttl) t0)
        secret) secret t1 rfl (by simpa using le_of_lt h1)
    simp only [verify_download_token, hd]
    rw [if_neg (by simp)]
    cases hf : db.files.find? (fun f => f.id == file_id) with
    | none => exact Or.inl rfl
    | some file => exact Or.inr ⟨_, rfl⟩
  · simp only [generate_download_link, jwt_encode]
    exact verify_download_token_expired db secret t2 _ rfl (by simpa using h2)

/-- C4 witness: empty database, issuance at time 0 with TTL 100, checks at
times 50 and 150. -/
theorem C4_ttl_expiry_witness :
    ((verify_stream_token
        (generate_stream_link (AuthDb.mk [] []) "key" 0 1 2 "fresh" 1 100).1
        "key" 50
        (generate_stream_link (AuthDb.mk [] []) "key" 0 1 2 "fresh" 1
          100).2).2 = .error "File not found" ∨
      (∃ info, (verify_stream_token
        (generate_stream_link (AuthDb.mk [] []) "key" 0 1 2 "fresh" 1 100).1
        "key" 50
        (generate_stream_link (AuthDb.mk [] []) "key" 0 1 2 "fresh" 1
          100).2).2 = .ok info)) ∧
    (verify_stream_token
        (generate_stream_link (AuthDb.mk [] []) "key" 0 1 2 "fresh" 1 100).1
        "key" 150
        (generate_stream_link (AuthDb.mk [] []) "key" 0 1 2 "fresh" 1
          100).2).2 = .error "Token expired" ∧
    (verify_download_token (AuthDb.mk [] []) "key" 50
        (generate_download_link "key" 0 1 2 100) = .error "File not found" ∨
      (∃ info, verify_download_token (AuthDb.mk [] []) "key" 50
        (generate_download_link "key" 0 1 2 100) = .ok info)) ∧
    verify_download_token (AuthDb.mk [] []) "key" 150
      (generate_download_link "key" 0 1 2 100) = .error "Token expired" :=
  C4_ttl_expiry (AuthDb.mk [] []) "key" 0 100 50 150 1 2 1 "fresh"
    (by simp) (by decide) (by decide)

/-- A row that went through one sweep step never matches the sweep filter
again: either it was deactivated or it did not match in the first place. -/
theorem expiredActiveFilter_after_sweep (now : Int) (s : StreamingSession) :
    expiredActiveFilter now
      (if expiredActiveFilter now s then { s with is_active := false }
       else s) = false := by
  by_cases h : expiredActiveFilter now s = true
  · rw [if_pos h]
    simp [expiredActiveFilter]
  · simp only [Bool.not_eq_true] at h
    simp [h]

/-- On a state where no session matches the sweep filter the sweep changes
nothing and logs 0. -/
theorem cleanup_noop (d : AuthDb) (now : Int)
    (hall : ∀ s ∈ d.sessions, expiredActiveFilter now s = false) :
    cleanup_expired_sessions d now = CleanupResult.mk d none 0 := by
  simp only [cleanup_expired_sessions]
  have hmap : ∀ s ∈ d.sessions,
      (if expiredActiveFilter now s then { s with is_active := false }
       else s) = s := by
    intro s hs
    rw [hall s hs]
    simp
  refine congrArg₂ (CleanupResult.mk · none ·) ?_ ?_
  · rw [List.map_congr_left hmap]
    simp
  · rw [List.length_eq_zero, List.filter_eq_nil_iff]
    exact fun s hs => by simp [hall s hs]

/-- C7 (amended): the sweep deactivates exactly the rows with
`is_active = true` and `expires_at < now` and touches nothing else — the
resulting table is the old one row for row, each matching row with only
`is_active` flipped and every non-matching row literally unchanged, so no
row is deleted or reordered — logs that count but returns `None` rather
than the count, and a second run on the resulting state deactivates
nothing and logs 0. -/
theorem C7_sweep_deactivates_and_is_idempotent (db : AuthDb) (now : Int) :
    (cleanup_expired_sessions db now).ret = none ∧
    (cleanup_expired_sessions db now).logged =
      (db.sessions.filter (expiredActiveFilter now)).length ∧
    (cleanup_expired_sessions db now).db.sessions.length =
      db.sessions.length ∧
    ((cleanup_expired_sessions db now).db.sessions.all
      (fun s => !(expiredActiveFilter now s))) = true ∧
    (cleanup_expired_sessions db now).db.sessions =
      db.sessions.map (fun s => if expiredActiveFilter now s then
        { s with is_active := false } else s) ∧
    (∀ s ∈ db.sessions, expiredActiveFilter now s = false →
      s ∈ (cleanup_expired_sessions db now).db.sessions) ∧
    (∀ s ∈ db.sessions, expiredActiveFilter now s = true →
      { s with is_active := false } ∈
        (cleanup_expired_sessions db now).db.sessions) ∧
    cleanup_expired_sessions (cleanup_expired_sessions db now).db now =
      CleanupResult.mk (cleanup_expired_sessions db now).db none 0 := by
  refine ⟨rfl, rfl, by simp [cleanup_expired_sessions], ?_, rfl, ?_, ?_, ?_⟩
  · simp only [cleanup_expired_sessions, List.all_map, List.all_eq_true]
    intro s hs
    simp [expiredActiveFilter_after_sweep]
  · intro s hs hf
    simp only [cleanup_expired_sessions, List.mem_map]
    exact ⟨s, hs, by rw [hf]; simp⟩
  · intro s hs hf
    simp only [cleanup_expired_sessions, List.mem_map]
    exact ⟨s, hs, by rw [if_pos hf]⟩
  · have hall : ∀ s ∈ (cleanup_expired_sessions db now).db.sessions,
        expiredActiveFilter now s = false := by
      simp only [cleanup_expired_sessions, List.mem_map]
      rintro s ⟨x, hx, rfl⟩
      exact expiredActiveFilter_after_sweep now x
    exact cleanup_noop (cleanup_expired_sessions db now).db now hall

/-- Expired-and-active row for the C7 amended-theorem witness. -/
def c7wExpired : StreamingSession :=
  { id := 1, user_id := 1, file_id := 1, session_token := "c7w1",
    expires_at := 50, last_active := 0, play_position := 0,
    is_active := true, last_position := 0 }

/-- Active, unexpired row for the C7 amended-theorem witness. -/
def c7wLive : StreamingSession :=
  { id := 2, user_id := 2, file_id := 2, session_token := "c7w2",
    expires_at := 200, last_active := 0, play_position := 0,
    is_active := true, last_position := 5 }

/-- Database for the C7 amended-theorem witness. -/
def c7wDb : AuthDb := { sessions := [c7wExpired, c7wLive], files := [] }

/-- C7 witness: at time 100 the sweep returns `None` and logs 1, the table
is the row-for-row image of the old one, the live row is retained
untouched, the expired row is retained deactivated, and a second run is a
fixed point logging 0. -/
theorem C7_sweep_deactivates_and_is_idempotent_witness :
    (cleanup_expired_sessions c7wDb 100).ret = none ∧
    (cleanup_expired_sessions c7wDb 100).logged = 1 ∧
    (cleanup_expired_sessions c7wDb 100).db.sessions =
      c7wDb.sessions.map (fun s => if expiredActiveFilter 100 s then
        { s with is_active := false } else s) ∧
    c7wLive ∈ (cleanup_expired_sessions c7wDb 100).db.sessions ∧
    { c7wExpired with is_active := false } ∈
      (cleanup_expired_sessions c7wDb 100).db.sessions ∧
    cleanup_expired_sessions (cleanup_expired_sessions c7wDb 100).db 100 =
      CleanupResult.mk (cleanup_expired_sessions c7wDb 100).db none 0 := by
  have h := C7_sweep_deactivates_and_is_idempotent c7wDb 100
  exact ⟨h.1, by rw [h.2.1]; decide, h.2.2.2.2.1,
    h.2.2.2.2.2.1 c7wLive (by decide) (by decide),
    h.2.2.2.2.2.2.1 c7wExpired (by decide) (by decide),
    h.2.2.2.2.2.2.2⟩

/-- Expired-and-active session for the C7 counterexample. -/
def c7Session : StreamingSession :=
  { id := 1, user_id := 1, file_id := 1, session_token := "c7tok",
    expires_at := 50, last_active := 0, play_position := 0,
    is_active := true, last_position := 0 }

/-- Database for the C7 counterexample. -/
def c7Db : AuthDb := { sessions := [c7Session], files := [] }

/-- C7 counterexample: at time 100 the sweep deactivates exactly one session
(the count it logs is 1) yet its return value is `None`, not the count 1
the claim promises. -/
theorem C7_returns_none_not_count :
    (cleanup_expired_sessions c7Db 100).logged = 1 ∧
    (cleanup_expired_sessions c7Db 100).ret = none ∧
    (cleanup_expired_sessions c7Db 100).ret ≠ some 1 := by
  refine ⟨rfl, rfl, by decide⟩

/-- C8: `log_access` propagates no exception to its caller whether or not
the audit write fails; on failure it logs internally and rolls back, and
the HTTP outcome of the download route is independent of the audit outcome. -/
theorem C8_audit_failure_never_propagates (logs : List AccessLog) (now : Int)
    (user_id : Nat) (file_id : Option Nat) (action : String)
    (ip_address user_agent : Option String) (success : Bool)
    (error_message : Option String) (commitFails : Bool)
    (db : AuthDb) (secret : String) (t : Int) (token : Jwt) :
    (log_access logs now user_id file_id action ip_address user_agent
      success error_message commitFails).raised = none ∧
    (log_access logs now user_id file_id action ip_address user_agent
      success error_message true).logs = logs ∧
    (log_access logs now user_id file_id action ip_address user_agent
      success error_message true).loggedError = true ∧
    (download_file db secret t token logs ip_address user_agent
      commitFails).1 =
    (download_file db secret t token logs ip_address user_agent false).1 := by
  refine ⟨?_, rfl, rfl, ?_⟩
  · cases commitFails <;> rfl
  · cases commitFails
    · rfl
    · simp only [download_file]
      cases hv : verify_download_token db secret t token <;> rfl

/-- File of 1000 zero bytes used by the C2 evaluation. -/
def c2File : List Nat := List.replicate 1000 0

set_option maxRecDepth 100000 in
/-- C2: evaluating `stream_file_data` at the input named by the claim — a
1000-byte file and `Range: bytes=1000-1005` (start ≥ size).  The code
answers 206 Partial Content with `Content-Range: bytes 1000-999/1000` and
`Content-Length: 0` and an empty body; it has no 416 /
`Content-Range: bytes */1000` path at all. -/
theorem C2_unsatisfiable_range_answered_206 :
    stream_file_data c2File none (some "bytes=1000-1005") =
      HttpResponse.mk 206 (some "bytes 1000-999/1000") true (some 0)
        (some "application/octet-stream") [] := by
  decide

/-- C3: any range request `bytes=s-e` (any header string parsing to that
pair) with `0 ≤ s < size` and `s ≤ e` is answered 206 with
`Content-Range: bytes s-e'/size` and `Content-Length = e' - s + 1` where
`e' = min (size - 1) e` — `e` beyond the file is clamped, not an error —
and the body is exactly the file bytes from offset `s` through `e'`. -/
theorem C3_partial_content (diskFile : List Nat) (mimeType : Option String)
    (h : String) (s e : Int)
    (hparse : parseRangeParts h (diskFile.length : Int) = some (s, e))
    (h0 : 0 ≤ s) (hlt : s < (diskFile.length : Int)) (hse : s ≤ e) :
    stream_file_data diskFile mimeType (some h) =
      HttpResponse.mk 206
        (some ("bytes " ++ toString s ++ "-" ++
          toString (min ((diskFile.length : Int) - 1) e) ++ "/" ++
          toString ((diskFile.length : Int))))
        true
        (some (min ((diskFile.length : Int) - 1) e - s + 1))
        (some (mimeType.getD "application/octet-stream"))
        ((diskFile.drop s.toNat).take
          (min ((diskFile.length : Int) - 1) e - s + 1).toNat) := by
  have hfz : parseRangeParts "" ((diskFile.length : Nat) : Int) = none := rfl
  have hne : ¬ h = "" := by
    intro heq
    rw [heq, hfz] at hparse
    exact Option.noConfusion hparse
  have hmax : max 0 s = s := max_eq_right h0
  have hbody : generateChunks diskFile (diskFile.length + 2) s.toNat
      (min ((diskFile.length : Int) - 1) e - s + 1) =
      (diskFile.drop s.toNat).take
        (min ((diskFile.length : Int) - 1) e - s + 1).toNat := by
    have hcl : min ((diskFile.length : Int) - 1) e - s + 1 =
        (((min ((diskFile.length : Int) - 1) e - s + 1).toNat : Nat) : Int) := by
      omega
    rw [hcl, generateChunks_eq_take_drop diskFile (diskFile.length + 2)
      s.toNat _ (by omega) (by omega)]
    simp
    omega
  simp only [stream_file_data, hparse, hmax, hne, if_false, hbody]

/-- File of 1000 zero bytes used by the C3 witness. -/
def c3File : List Nat := List.replicate 1000 0

set_option maxRecDepth 100000 in
/-- C3 witness: the two spec examples on a 1000-byte file —
`bytes=100-199` gives 206 / `bytes 100-199/1000` / 100 bytes, and
`bytes=900-2000` clamps to `bytes 900-999/1000` instead of erroring. -/
theorem C3_partial_content_witness :
    stream_file_data c3File none (some "bytes=100-199") =
      HttpResponse.mk 206 (some "bytes 100-199/1000") true (some 100)
        (some "application/octet-stream") ((c3File.drop 100).take 100) ∧
    stream_file_data c3File none (some "bytes=900-2000") =
      HttpResponse.mk 206 (some "bytes 900-999/1000") true (some 100)
        (some "application/octet-stream") ((c3File.drop 900).take 100) :=
  ⟨C3_partial_content c3File none "bytes=100-199" 100 199 (by decide)
     (by decide) (by decide) (by decide),
   C3_partial_content c3File none "bytes=900-2000" 900 2000 (by decide)
     (by decide) (by decide) (by decide)⟩
